import Mathlib

/-!
Verification of the glyphsLib in-memory font document model
(`Lib/glyphsLib/classes.py`) against its natural-language specification.

The Python source is shallowly embedded: mutable objects become Lean
structures, property reads become pure functions on those structures,
in-place mutation becomes state-returning functions, and raising a Python
exception becomes returning an `Except` error.  Values of the loosely
typed attribute space are modelled by the `PValue` inductive.
-/

set_option maxHeartbeats 1000000

/-- Python exception kinds raised by the embedded code paths. -/
inductive PyErr where
  | attributeError
  | valueError
  | typeError
  | keyError
  | indexError
  | assertionError
deriving DecidableEq

/-- Python values as they occur in the object graph: `None`, scalars,
strings, lists, dicts, and instances of the `baseType` wrapper value
classes from `glyphsLib.types` (point, transform, color, datetime), which
carry an optional inner `value` attribute. -/
inductive PValue where
  | none
  | bool (b : Bool)
  | int (n : Int)
  | float (q : Rat)
  | str (s : String)
  | list (vs : List PValue)
  | dict (entries : List (String × PValue))
  | wrapper (v : Option PValue)

/-- Numeric view used by Python `==` and `!=`: ints, floats and bools
compare by numeric value across those three types. -/
def pyNum : PValue → Option Rat
  | .bool b => some (if b then 1 else 0)
  | .int n => some (n : Rat)
  | .float q => some q
  | _ => Option.none

mutual
/-- Python `==` on stored values.  Numbers and booleans compare by value;
strings, lists and dicts compare structurally (dict comparison is modelled
entrywise in order — the only dict the serialization policy ever compares
against is the empty default); `baseType` wrapper instances compare by
object identity, modelled as never equal. -/
def pyEq : PValue → PValue → Bool
  | .none, .none => true
  | .str a, .str b => a == b
  | .list a, .list b => pyEqList a b
  | .dict a, .dict b => pyEqDict a b
  | a, b =>
    match pyNum a, pyNum b with
    | some x, some y => x == y
    | _, _ => false

def pyEqList : List PValue → List PValue → Bool
  | [], [] => true
  | a :: as', b :: bs' => pyEq a b && pyEqList as' bs'
  | _, _ => false

def pyEqDict : List (String × PValue) → List (String × PValue) → Bool
  | [], [] => true
  | (ka, va) :: as', (kb, vb) :: bs' => ka == kb && pyEq va vb && pyEqDict as' bs'
  | _, _ => false
end

/-- Python truthiness (`bool(value)` / use in an `if`). -/
def pyTruthy : PValue → Bool
  | .none => false
  | .bool b => b
  | .int n => n != 0
  | .float q => q != 0
  | .str s => !s.isEmpty
  | .list vs => !vs.isEmpty
  | .dict es => !es.isEmpty
  | .wrapper _ => true

/-- Python `value == 0` (used by the serialization policy's zero rule). -/
def pyEqZero (v : PValue) : Bool := pyEq v (.int 0)

/-- Python `len(value)`; raises `TypeError` on objects without a length. -/
def pyLen : PValue → Except PyErr Nat
  | .str s => .ok s.length
  | .list vs => .ok vs.length
  | .dict es => .ok es.length
  | _ => .error .typeError

/-- Python `abs` on a number. -/
def pyAbs (q : Rat) : Rat := if q < 0 then -q else q

/-- Reads a non-empty all-digit character run as a natural number. -/
def decDigitsToNat (cs : List Char) : Option Nat :=
  if cs ≠ [] ∧ cs.all Char.isDigit then
    some (cs.foldl (fun a c => a * 10 + (c.toNat - 48)) 0)
  else Option.none

/-- Python `int()` applied to a decimal string: an optional sign followed
by digits (whitespace padding is not modelled). -/
def pyIntParse (s : String) : Option Int :=
  match s.toList with
  | '-' :: rest => (decDigitsToNat rest).map (fun n => -(n : Int))
  | '+' :: rest => (decDigitsToNat rest).map (fun n => (n : Int))
  | cs => (decDigitsToNat cs).map (fun n => (n : Int))

/-- Python `float()` applied to a decimal string with an optional sign and
an optional fractional part. -/
def pyFloatParse (s : String) : Option Rat :=
  let neg := s.startsWith "-"
  let s' := if s.startsWith "-" || s.startsWith "+" then s.drop 1 else s
  let core : Option Rat :=
    match s'.splitOn "." with
    | [a] => (decDigitsToNat a.toList).map (fun n => (n : Rat))
    | [a, b] =>
      match decDigitsToNat a.toList, decDigitsToNat b.toList with
      | some na, some nb => some ((na : Rat) + (nb : Rat) / ((10 : Rat) ^ b.length))
      | some na, Option.none => if b.isEmpty then some ((na : Rat)) else Option.none
      | Option.none, some nb => if a.isEmpty then some ((nb : Rat) / ((10 : Rat) ^ b.length)) else Option.none
      | _, _ => Option.none
    | _ => Option.none
  core.map (fun q => if neg then -q else q)

/-- Python `int(value)`: ints pass through, booleans become 0/1, floats
truncate toward zero, decimal strings parse (`ValueError` otherwise),
anything else raises `TypeError`. -/
def pyToInt : PValue → Except PyErr Int
  | .bool b => .ok (if b then 1 else 0)
  | .int n => .ok n
  | .float q => .ok (q.num / (q.den : Int))
  | .str s =>
    match pyIntParse s with
    | some n => .ok n
    | Option.none => .error .valueError
  | _ => .error .typeError

/-- Python `float(value)`. -/
def pyToFloat : PValue → Except PyErr Rat
  | .bool b => .ok (if b then 1 else 0)
  | .int n => .ok (n : Rat)
  | .float q => .ok q
  | .str s =>
    match pyFloatParse s with
    | some q => .ok q
    | Option.none => .error .valueError
  | _ => .error .typeError

/-- Modelled from the spec: `needsQuotes` from `glyphsLib.types` (not under
src/).  §4.2: text needing escaping (quotes, special characters) is quoted
on render; identifier-like text of letters, digits, `.` and `_` needs no
quotes, empty or other text does. -/
def needsQuotesM (s : String) : Bool :=
  s.isEmpty || s.toList.any (fun c => !(c.isAlphanum || c == '.' || c == '_'))

/-- Modelled from the spec: `floatToString` from `glyphsLib.types` (not
under src/): numbers render as decimal text, integral values without a
fractional part. -/
def floatToStringM (q : Rat) : String :=
  if q.den = 1 then toString q.num
  else toString q.num ++ "/" ++ toString q.den

/-- Python `str(value)`.  Scalar conversions follow Python; container and
object texts are abbreviated since no verified path renders them. -/
def pyStrM : PValue → String
  | .none => "None"
  | .bool true => "True"
  | .bool false => "False"
  | .int n => toString n
  | .float q => floatToStringM q
  | .str s => s
  | .list _ => "<list>"
  | .dict _ => "<dict>"
  | .wrapper _ => "<object>"

/-- Flushes a pending sign/digit run while scanning an integer list. -/
def intRunFlush (acc : List Char) : List Int :=
  match pyIntParse (String.mk acc) with
  | some n => [n]
  | Option.none => []

/-- Collects the integer runs of a character stream, skipping delimiters. -/
def intRunsM : List Char → List Char → List Int
  | [], acc => intRunFlush acc
  | c :: cs, acc =>
    if c.isDigit || c == '-' then intRunsM cs (acc ++ [c])
    else intRunFlush acc ++ intRunsM cs []

/-- Modelled from the spec: `readIntlist` from `glyphsLib.types` (not under
src/).  §4.2: integer-list coded parameters use a comma/parenthesis
delimited encoding; the integer runs of the text are read, and an already
listed value keeps its integer elements. -/
def readIntlistM : PValue → List Int
  | .str s => intRunsM s.toList []
  | .list vs => vs.foldr (fun x acc => match x with | PValue.int n => n :: acc | _ => acc) []
  | .int n => [n]
  | _ => []

/-- Modelled from the spec: `writeIntlist` from `glyphsLib.types` (not
under src/): each element of the stored list renders as its decimal text. -/
def writeIntlistM : PValue → List String
  | .list vs => vs.map pyStrM
  | _ => []

/-- Modelled from the spec: `feature_syntax_encode` from `glyphsLib.types`
(not under src/): string values needing escaping are quoted on render. -/
def featureSyntaxEncodeM (s : String) : String :=
  if needsQuotesM s then "\"" ++ s ++ "\"" else s

/-- Modelled from the spec: `Parser.parse` from `glyphsLib.parser` (not
under src/), used only for GASP-style nested-map parameters; the generic
tree is taken as already parsed. -/
def parserParseM (v : PValue) : PValue := v

/-- String order used for `sorted(value.keys())`. -/
def strLeB (a b : String) : Bool := (compare a b).isLE

/-- Insertion step of the lexicographic key sort. -/
def strInsertSorted (a : String) : List String → List String
  | [] => [a]
  | b :: bs => if strLeB a b then a :: b :: bs else b :: strInsertSorted a bs

/-- Python `sorted` on a list of strings. -/
def strSortM (l : List String) : List String :=
  l.foldr strInsertSorted []

/-- First value bound to a key in an association list, as Python dict
lookup over the rendered entries. -/
def assocLookup (entries : List (String × PValue)) (k : String) : Option PValue :=
  (entries.find? (fun e => e.1 == k)).map Prod.snd

/-- Modelled from the spec: `GlyphsWriter.writeDict` from
`glyphsLib.writer` (not under src/): a nested map renders as
`{ key = value; ... }` with keys sorted lexicographically (§4.2). -/
def writeDictM (entries : List (String × PValue)) : String :=
  let keys := strSortM (entries.map Prod.fst)
  let parts := keys.map (fun k =>
    let v := (assocLookup entries k).getD PValue.none
    let ks := if needsQuotesM k then "\"" ++ k ++ "\"" else k
    let vs0 := pyStrM v
    let vs := if needsQuotesM vs0 then "\"" ++ vs0 ++ "\"" else vs0
    ks ++ " = " ++ vs ++ ";")
  "\x7b\n" ++ String.intercalate "\n" parts ++ "\n\x7d"

/-- One custom parameter: a name together with its stored (already
coerced) value — `GSCustomParameter`. -/
structure Param where
  name : String
  value : PValue

/-- `GSCustomParameter._CUSTOM_INT_PARAMS`. -/
def CUSTOM_INT_PARAMS : List String :=
  ["ascender", "blueShift", "capHeight", "descender", "hheaAscender",
   "hheaDescender", "hheaLineGap", "macintoshFONDFamilyID",
   "openTypeHeadLowestRecPPEM", "openTypeHheaAscender",
   "openTypeHheaCaretOffset",
   "openTypeHheaCaretSlopeRise", "openTypeHheaCaretSlopeRun",
   "openTypeHheaDescender", "openTypeHheaLineGap",
   "openTypeOS2StrikeoutPosition", "openTypeOS2StrikeoutSize",
   "openTypeOS2SubscriptXOffset", "openTypeOS2SubscriptXSize",
   "openTypeOS2SubscriptYOffset", "openTypeOS2SubscriptYSize",
   "openTypeOS2SuperscriptXOffset", "openTypeOS2SuperscriptXSize",
   "openTypeOS2SuperscriptYOffset", "openTypeOS2SuperscriptYSize",
   "openTypeOS2TypoAscender", "openTypeOS2TypoDescender",
   "openTypeOS2TypoLineGap", "openTypeOS2WeightClass",
   "openTypeOS2WidthClass",
   "openTypeOS2WinAscent", "openTypeOS2WinDescent",
   "openTypeVheaCaretOffset",
   "openTypeVheaCaretSlopeRise", "openTypeVheaCaretSlopeRun",
   "openTypeVheaVertTypoAscender", "openTypeVheaVertTypoDescender",
   "openTypeVheaVertTypoLineGap", "postscriptBlueFuzz",
   "postscriptBlueShift",
   "postscriptDefaultWidthX", "postscriptSlantAngle",
   "postscriptUnderlinePosition", "postscriptUnderlineThickness",
   "postscriptUniqueID", "postscriptWindowsCharacterSet",
   "shoulderHeight",
   "smallCapHeight", "typoAscender", "typoDescender", "typoLineGap",
   "underlinePosition", "underlineThickness", "unitsPerEm",
   "vheaVertAscender",
   "vheaVertDescender", "vheaVertLineGap", "weightClass", "widthClass",
   "winAscent", "winDescent", "xHeight", "year", "Grid Spacing"]

/-- `GSCustomParameter._CUSTOM_FLOAT_PARAMS`. -/
def CUSTOM_FLOAT_PARAMS : List String := ["postscriptBlueScale"]

/-- `GSCustomParameter._CUSTOM_BOOL_PARAMS`. -/
def CUSTOM_BOOL_PARAMS : List String :=
  ["isFixedPitch", "postscriptForceBold", "postscriptIsFixedPitch",
   "Don’t use Production Names", "DisableAllAutomaticBehaviour",
   "Use Typo Metrics", "Has WWS Names", "Use Extension Kerning"]

/-- `GSCustomParameter._CUSTOM_INTLIST_PARAMS`. -/
def CUSTOM_INTLIST_PARAMS : List String :=
  ["fsType", "openTypeOS2CodePageRanges", "openTypeOS2FamilyClass",
   "openTypeOS2Panose", "openTypeOS2Type", "openTypeOS2UnicodeRanges",
   "panose", "unicodeRanges", "codePageRanges", "openTypeHeadFlags"]

/-- `GSCustomParameter._CUSTOM_DICT_PARAMS`: the source builds
`frozenset(('GASP Table'))`, a frozenset of a bare string — i.e. the set
of its characters, not the set containing the name `"GASP Table"`. -/
def CUSTOM_DICT_PARAMS : List String :=
  ["G", "A", "S", "P", " ", "T", "a", "b", "l", "e"]

/-- `GSCustomParameter.setValue`: casts known-name data on assignment. -/
def setValue (name : String) (value : PValue) : Except PyErr PValue :=
  if CUSTOM_INT_PARAMS.contains name then
    match pyToInt value with
    | .ok n => .ok (.int n)
    | .error e => .error e
  else if CUSTOM_FLOAT_PARAMS.contains name then
    match pyToFloat value with
    | .ok q => .ok (.float q)
    | .error e => .error e
  else if CUSTOM_BOOL_PARAMS.contains name then
    .ok (.bool (pyTruthy value))
  else if CUSTOM_INTLIST_PARAMS.contains name then
    .ok (.list ((readIntlistM value).map PValue.int))
  else if CUSTOM_DICT_PARAMS.contains name then
    .ok (parserParseM value)
  else if name == "note" then
    .ok (.str (pyStrM value))
  else
    .ok value

/-- `GSCustomParameter.getValue`: returns the stored value unchanged. -/
def paramGetValue (p : Param) : PValue := p.value

/-- The outer plist form `\x7b\nname = ...;\nvalue = ...;\n\x7d`. -/
def plistWrap (name value : String) : String :=
  "\x7b\nname = " ++ name ++ ";\nvalue = " ++ value ++ ";\n\x7d"

/-- List-element rendering inside `GSCustomParameter.plistValue`. -/
def plistListElem (v : PValue) : String :=
  match v with
  | .int n => toString n
  | .float q => floatToStringM q
  | .dict entries => writeDictM entries
  | v' =>
    let t := pyStrM v'
    if needsQuotesM t then "\"" ++ t ++ "\"" else t

/-- `GSCustomParameter.plistValue`: renders one parameter to its textual
plist form, dispatching on the name-keyed coercion registry first and on
the stored value's shape otherwise; unsupported shapes raise `TypeError`. -/
def plistValue (p : Param) : Except PyErr String :=
  let name := if needsQuotesM p.name then "\"" ++ p.name ++ "\"" else p.name
  if CUSTOM_INT_PARAMS.contains p.name then
    .ok (plistWrap name (pyStrM p.value))
  else if CUSTOM_FLOAT_PARAMS.contains p.name then
    match p.value with
    | .float q => .ok (plistWrap name (floatToStringM q))
    | .int n => .ok (plistWrap name (toString n))
    | v => .ok (plistWrap name (pyStrM v))
  else if CUSTOM_BOOL_PARAMS.contains p.name then
    .ok (plistWrap name (if pyTruthy p.value then "1" else "0"))
  else if CUSTOM_INTLIST_PARAMS.contains p.name then
    let values := writeIntlistM p.value
    if values.length > 0 then
      .ok (plistWrap name ("(\n" ++ String.intercalate ",\n" values ++ "\n)"))
    else
      .ok (plistWrap name "(\n)")
  else
    match p.value with
    | .str s => .ok (plistWrap name (featureSyntaxEncodeM s))
    | .list vs =>
      .ok (plistWrap name ("(\n" ++ String.intercalate ",\n" (vs.map plistListElem) ++ "\n)"))
    | .dict entries => .ok (plistWrap name (writeDictM entries))
    | _ => .error .typeError

/-- `CustomParametersProxy.__getitem__` with a string key: first match in
insertion order, the parameter's value; Python `None` when absent. -/
def cpLookupValue (params : List Param) (key : String) : Option PValue :=
  (params.find? (fun p => p.name == key)).map Param.value

/-- A key handed to the custom-parameter proxy: an integer position or a
parameter name. -/
inductive CPKey where
  | pos (i : Int)
  | name (s : String)

/-- What indexing the proxy yields: the parameter object itself for a
position, the stored value for a name. -/
inductive CPGot where
  | obj (p : Param)
  | val (v : PValue)

/-- Python list indexing with negative-index support; `Option.none` models
the `IndexError` raise. -/
def pyListGet {α : Type} (l : List α) (i : Int) : Option α :=
  if 0 ≤ i then l.get? i.toNat
  else if (-i).toNat ≤ l.length then l.get? (l.length - (-i).toNat)
  else Option.none

/-- The position a Python index resolves to in a list of length `len`. -/
def pyNormIdx (len : Nat) (i : Int) : Nat :=
  if 0 ≤ i then i.toNat else len - (-i).toNat

/-- `CustomParametersProxy.__getitem__`. -/
def cpGetItem (params : List Param) : CPKey → Except PyErr CPGot
  | .pos i =>
    match pyListGet params i with
    | some p => .ok (.obj p)
    | Option.none => .error .indexError
  | .name s =>
    match params.find? (fun p => p.name == s) with
    | some p => .ok (.val p.value)
    | Option.none => .ok (.val .none)

/-- Appending `GSCustomParameter(name=key, value=value)` to the backing
list (the else branch of `CustomParametersProxy.__setitem__`); the
constructor assignment runs the `setValue` coercion. -/
def cpAppendNew (params : List Param) (s : String) (v : PValue) : Except PyErr (List Param) :=
  match setValue s v with
  | .ok nv => .ok (params ++ [Param.mk s nv])
  | .error e => .error e

/-- `CustomParametersProxy.__setitem__`.  For a name key the source first
calls `__getitem__`, which yields the stored *value* (not the parameter
object); `Value.value = value` then assigns an attribute on that value:
an `AttributeError` for builtin types, a silent inner-value overwrite for
`baseType` wrapper instances.  A stored `None` is indistinguishable from
an absent parameter and triggers a duplicate append. -/
def cpSetItem (params : List Param) (key : CPKey) (v : PValue) : Except PyErr (List Param) :=
  match key with
  | .pos i =>
    match pyListGet params i with
    | some p =>
      match setValue p.name v with
      | .ok nv => .ok (params.set (pyNormIdx params.length i) { p with value := nv })
      | .error e => .error e
    | Option.none => .error .indexError
  | .name s =>
    match params.findIdx? (fun p => p.name == s) with
    | Option.none => cpAppendNew params s v
    | some i =>
      match params.get? i with
      | Option.none => .error .indexError
      | some p =>
        match p.value with
        | .none => cpAppendNew params s v
        | .wrapper _ => .ok (params.set i { p with value := .wrapper (some v) })
        | _ => .error .attributeError

/-- `GSFontMaster`: the fields the name computation reads.  `name_` is the
`_name` slot (None until assigned or until the first `name` read caches its
result); `weight_`/`width_` are the raw `_weight`/`_width` slots, both
initialized to `"Regular"`; `custom_` is `_custom` (initialized to the
empty string), `custom1_`/`custom2_` are `_custom1`/`_custom2`
(initialized to None). -/
structure Master where
  id : String
  name_ : Option PValue
  weight_ : String
  width_ : String
  custom_ : String
  custom1_ : Option String
  custom2_ : Option String
  italicAngle : Rat
  customParameters : List Param

/-- `GSFont`: the master list, as read by `masterForId`. -/
structure Font where
  masters : List Master

/-- `GSFont.masterForId`: first master whose id equals the key. -/
def fontMasterForId (f : Font) (key : String) : Option Master :=
  f.masters.find? (fun m => m.id == key)

/-- The name-computation branch of the `GSFontMaster.name` property
(taken when `_name` is None and no "Master Name" custom parameter is
set).  Two source lines can raise: `names.remove("Regular")` runs
whenever `len(names) > 1` — which always holds, since `names` starts as
`[self._weight, self._width]` — and `list.remove` raises `ValueError`
when `"Regular"` is absent; and `names.add("Italic")` is called on a
Python *list*, which has no `add` method, so any italic angle above 0.01
raises `AttributeError`. -/
def masterComputeName (m : Master) : Except PyErr String :=
  let names0 : List String := [m.weight_, m.width_]
  let names1 : List String :=
    if m.custom_ != "" && !(names0.contains m.custom_) then names0 ++ [m.custom_] else names0
  let names2 : List String :=
    match m.custom1_ with
    | some c => if c != "" && !(names1.contains c) then names1 ++ [c] else names1
    | Option.none => names1
  let names3 : List String :=
    match m.custom2_ with
    | some c => if c != "" && !(names2.contains c) then names2 ++ [c] else names2
    | Option.none => names2
  if names3.length > 1 then
    if names3.contains "Regular" then
      let names4 := names3.erase "Regular"
      if pyAbs m.italicAngle > mkRat 1 100 then .error .attributeError
      else .ok (String.intercalate " " names4)
    else .error .valueError
  else
    if pyAbs m.italicAngle > mkRat 1 100 then .error .attributeError
    else .ok (String.intercalate " " names3)

/-- The value returned by reading the `GSFontMaster.name` property: the
cached `_name` when set, else the "Master Name" custom parameter when
present and not None, else the computed name.  The property also stores
the result back into `_name` (cache-on-first-read); this function is the
value projection of that read. -/
def masterNameRead (m : Master) : Except PyErr PValue :=
  match m.name_ with
  | some n => .ok n
  | Option.none =>
    match cpLookupValue m.customParameters "Master Name" with
    | some v =>
      match v with
      | .none =>
        match masterComputeName m with
        | .ok s => .ok (.str s)
        | .error e => .error e
      | _ => .ok v
    | Option.none =>
      match masterComputeName m with
      | .ok s => .ok (.str s)
      | .error e => .error e

/-- `GSLayer`, restricted to the fields its name read and the glyph-layer
proxy touch.  `name_` is the `_name` slot (the class default table
initializes it to `"Regular"`); `parent` is the back-reference to the
owning glyph, modelled by the glyph's numeric identity. -/
structure Layer where
  layerId : String
  associatedMasterId : String
  name_ : PValue
  parent : Option Nat

/-- Reading the `GSLayer.name` property.  `glyphFont` is the dereference
of `self.parent.parent` — the owning glyph's font — supplied by the
caller; when the guard holds but the glyph has no font, `None.masterForId`
raises `AttributeError`. -/
def layerNameRead (l : Layer) (glyphFont : Option Font) : Except PyErr PValue :=
  if l.associatedMasterId != "" && l.associatedMasterId == l.layerId && l.parent.isSome then
    match glyphFont with
    | some font =>
      match fontMasterForId font l.associatedMasterId with
      | some m => masterNameRead m
      | Option.none => .ok l.name_
    | Option.none => .error .attributeError
  else .ok l.name_

/-- `GSAnchor`: name, position, and the back-reference to the owning
layer, modelled by the layer's numeric identity. -/
structure Anchor where
  name : String
  x : Int
  y : Int
  parent : Option Nat
deriving DecidableEq

/-- `LayerAnchorsProxy.append`: a same-named anchor (first match) is
replaced in place with the new anchor's parent set; otherwise a non-empty
name appends at the end (the source does not set `_parent` on this
branch), and an empty name raises `ValueError`. -/
def layerAnchorsAppend (ownerId : Nat) (anchors : List Anchor) (anchor : Anchor) :
    Except PyErr (List Anchor) :=
  match anchors.findIdx? (fun a => a.name == anchor.name) with
  | some i => .ok (anchors.set i { anchor with parent := some ownerId })
  | Option.none =>
    if anchor.name != "" then .ok (anchors ++ [anchor])
    else .error .valueError

/-- `GSGlyph`, restricted to what the layer proxy touches: a numeric
identity for back-references and the `_layers` ordered dict as an
association list in insertion order. -/
structure Glyph where
  gid : Nat
  layers : List (String × Layer)

/-- `OrderedDict` assignment `d[k] = v`: replaces in place at the existing
position, else appends. -/
def odInsert : List (String × Layer) → String → Layer → List (String × Layer)
  | [], k, l => [(k, l)]
  | (k', l') :: rest, k, l =>
    if k' == k then (k', l) :: rest else (k', l') :: odInsert rest k l

/-- `GSGlyph._setupLayer`: sets the layer's parent to the glyph, its
`layerId` to the key, and binds `associatedMasterId` to the key when the
glyph's font has a master with that id. -/
def setupLayer (glyphFont : Option Font) (gid : Nat) (l : Layer) (key : String) : Layer :=
  { l with
    parent := some gid
    layerId := key
    associatedMasterId :=
      match glyphFont with
      | some f => if (fontMasterForId f key).isSome then key else l.associatedMasterId
      | Option.none => l.associatedMasterId }

/-- The value handed to `GlyphLayerProxy.setter`: Python distinguishes
lists, tuples, proxies of the same kind, dicts, and everything else. -/
inductive LayersInput where
  | list (ls : List Layer)
  | tuple (ls : List Layer)
  | proxy (ls : List Layer)
  | dict (entries : List (String × Layer))
  | other

/-- `GlyphLayerProxy.setter`: builds a fresh `OrderedDict` keyed by each
supplied layer's current `layerId` (later duplicates overwrite earlier
ones in place), then runs `_setupLayer` on every surviving entry; any
other input type raises `TypeError`. -/
def glyphLayersSetter (glyphFont : Option Font) (g : Glyph) : LayersInput → Except PyErr Glyph
  | .list ls | .tuple ls | .proxy ls =>
    let newLayers := ls.foldl (fun acc l => odInsert acc l.layerId l) []
    .ok { g with layers := newLayers.map (fun p => (p.1, setupLayer glyphFont g.gid p.2 p.1)) }
  | .dict entries =>
    let newLayers := entries.foldl (fun acc p => odInsert acc p.2.layerId p.2) []
    .ok { g with layers := newLayers.map (fun p => (p.1, setupLayer glyphFont g.gid p.2 p.1)) }
  | .other => .error .typeError

/-- The declared per-field semantic type in a `_classesForName` table. -/
inductive TypeTag where
  | tint
  | tfloat
  | tbool
  | tstr
  | tunicode
  | tdict
  | tordereddict
  | tentity
  | tvalue
deriving DecidableEq

/-- Python `needle in hay` on strings: substring containment (the source's
`key in ("width")` tests against the bare string, not a tuple). -/
def listIsPrefixOfB : List Char → List Char → Bool
  | [], _ => true
  | _ :: _, [] => false
  | x :: xs, y :: ys => x == y && listIsPrefixOfB xs ys

/-- Substring search over character lists. -/
def listIsInfixOfB (a b : List Char) : Bool :=
  listIsPrefixOfB a b ||
    match b with
    | [] => false
    | _ :: bs => listIsInfixOfB a bs

/-- Python `needle in hay` for strings. -/
def pyInStr (needle hay : String) : Bool :=
  listIsInfixOfB needle.toList hay.toList

/-- Rules (3)-(5) of `GSBase.shouldWriteValueForKey`: a bare
numeric/boolean equal to zero is omitted, a `baseType` wrapper whose
`value` is None is omitted, everything else is written. -/
def shouldWriteRest (klass : TypeTag) (value : PValue) : Bool :=
  if (klass == TypeTag.tint || klass == TypeTag.tfloat || klass == TypeTag.tbool)
      && pyEqZero value then false
  else
    match value with
    | .wrapper Option.none => false
    | _ => true

/-- `GSBase.shouldWriteValueForKey`, generic over the entity's
`_classesForName`, `_defaultsForName` and `_wrapperKeysTranslate` tables
and its attribute space `getValue`.  A declared default of None is
indistinguishable from no default (`default is not None`). -/
def gsShouldWriteValueForKey (classesForName : String → Option TypeTag)
    (defaultsForName : String → Option PValue) (keyTranslate : String → String)
    (getValue : String → Option PValue) (key : String) : Except PyErr Bool :=
  match getValue (keyTranslate key) with
  | Option.none => .error .attributeError
  | some value =>
    match classesForName key with
    | Option.none => .error .keyError
    | some klass =>
      match defaultsForName key with
      | some d =>
        match d with
        | .none => .ok (shouldWriteRest klass value)
        | _ => .ok (!(pyEq d value))
      | Option.none => .ok (shouldWriteRest klass value)

/-- `GSFont._classesForName`. -/
def fontClassesForName : String → Option TypeTag
  | ".appVersion" => some .tint
  | "DisplayStrings" => some .tunicode
  | "classes" => some .tentity
  | "copyright" => some .tunicode
  | "customParameters" => some .tentity
  | "date" => some .tvalue
  | "designer" => some .tunicode
  | "designerURL" => some .tunicode
  | "disablesAutomaticAlignment" => some .tbool
  | "disablesNiceNames" => some .tbool
  | "familyName" => some .tunicode
  | "featurePrefixes" => some .tentity
  | "features" => some .tentity
  | "fontMaster" => some .tentity
  | "glyphs" => some .tentity
  | "grid" => some .tint
  | "gridLength" => some .tint
  | "gridSubDivision" => some .tint
  | "instances" => some .tentity
  | "keepAlternatesTogether" => some .tbool
  | "kerning" => some .tordereddict
  | "manufacturer" => some .tunicode
  | "manufacturerURL" => some .tunicode
  | "unitsPerEm" => some .tint
  | "userData" => some .tdict
  | "versionMajor" => some .tint
  | "versionMinor" => some .tint
  | _ => Option.none

/-- `GSFont._defaultsForName`. -/
def fontDefaultsForName : String → Option PValue
  | "classes" => some (.list [])
  | "customParameters" => some (.list [])
  | "disablesAutomaticAlignment" => some (.bool false)
  | "disablesNiceNames" => some (.bool false)
  | "gridLength" => some (.int 1)
  | "gridSubDivision" => some (.int 1)
  | "unitsPerEm" => some (.int 1000)
  | "kerning" => some (.dict [])
  | _ => Option.none

/-- `GSFont._wrapperKeysTranslate`. -/
def fontKeyTranslate (k : String) : String :=
  if k == ".appVersion" then "appVersion"
  else if k == "fontMaster" then "masters"
  else if k == "unitsPerEm" then "upm"
  else k

/-- `GSFontMaster._classesForName`. -/
def masterClassesForName : String → Option TypeTag
  | "alignmentZones" => some .tentity
  | "ascender" => some .tfloat
  | "capHeight" => some .tfloat
  | "custom" => some .tunicode
  | "customParameters" => some .tentity
  | "customValue" => some .tfloat
  | "descender" => some .tfloat
  | "guideLines" => some .tentity
  | "horizontalStems" => some .tint
  | "id" => some .tstr
  | "italicAngle" => some .tfloat
  | "userData" => some .tdict
  | "verticalStems" => some .tint
  | "visible" => some .tbool
  | "weight" => some .tstr
  | "weightValue" => some .tfloat
  | "width" => some .tstr
  | "widthValue" => some .tfloat
  | "xHeight" => some .tfloat
  | _ => Option.none

/-- `GSFontMaster._defaultsForName`. -/
def masterDefaultsForName : String → Option PValue
  | "weightValue" => some (.float 100)
  | "widthValue" => some (.float 100)
  | _ => Option.none

/-- `GSFontMaster._wrapperKeysTranslate`. -/
def masterKeyTranslate (k : String) : String :=
  if k == "guideLines" then "guides" else k

/-- `GSLayer._classesForName`. -/
def layerClassesForName : String → Option TypeTag
  | "anchors" => some .tentity
  | "annotations" => some .tentity
  | "associatedMasterId" => some .tstr
  | "background" => some .tentity
  | "backgroundImage" => some .tdict
  | "color" => some .tvalue
  | "components" => some .tentity
  | "guideLines" => some .tentity
  | "hints" => some .tentity
  | "layerId" => some .tstr
  | "leftMetricsKey" => some .tunicode
  | "name" => some .tunicode
  | "paths" => some .tentity
  | "rightMetricsKey" => some .tunicode
  | "userData" => some .tdict
  | "vertWidth" => some .tfloat
  | "visible" => some .tbool
  | "width" => some .tfloat
  | "widthMetricsKey" => some .tunicode
  | _ => Option.none

/-- `GSLayer._defaultsForName`. -/
def layerDefaultsForName : String → Option PValue
  | "name" => some (.str "Regular")
  | "weight" => some (.int 600)
  | _ => Option.none

/-- `GSLayer._wrapperKeysTranslate`. -/
def layerKeyTranslate (k : String) : String :=
  if k == "guideLines" then "guides" else k

/-- `GSPath._classesForName`. -/
def pathClassesForName : String → Option TypeTag
  | "nodes" => some .tentity
  | "closed" => some .tbool
  | _ => Option.none

/-- `GSPath._defaultsForName`. -/
def pathDefaultsForName : String → Option PValue
  | "closed" => some (.bool true)
  | _ => Option.none

/-- `GSFont.shouldWriteValueForKey`: units-per-em and minor version are
always written; everything else falls to the base rules. -/
def gsFontShouldWriteValueForKey (getValue : String → Option PValue) (key : String) :
    Except PyErr Bool :=
  if key == "unitsPerEm" || key == "versionMinor" then .ok true
  else gsShouldWriteValueForKey fontClassesForName fontDefaultsForName fontKeyTranslate
    getValue key

/-- `GSFontMaster.shouldWriteValueForKey`: width and weight are written
exactly when their (property) value is not `"Regular"`; everything else
falls to the base rules. -/
def gsFontMasterShouldWriteValueForKey (getValue : String → Option PValue) (key : String) :
    Except PyErr Bool :=
  if key == "width" || key == "weight" then
    match getValue key with
    | some v => .ok (!(pyEq v (.str "Regular")))
    | Option.none => .error .attributeError
  else gsShouldWriteValueForKey masterClassesForName masterDefaultsForName masterKeyTranslate
    getValue key

/-- `GSLayer.shouldWriteValueForKey`: `name` and `associatedMasterId` are
written exactly when the layer is not a master layer; `key in ("width")`
is a substring test against the bare string `"width"`; `backgroundImage`
is written when non-empty; everything else falls to the base rules. -/
def gsLayerShouldWriteValueForKey (layerId associatedMasterId : String)
    (getValue : String → Option PValue) (key : String) : Except PyErr Bool :=
  if key == "associatedMasterId" || key == "name" then
    .ok (layerId != associatedMasterId)
  else if pyInStr key "width" then .ok true
  else if key == "backgroundImage" then
    match getValue key with
    | some v =>
      match pyLen v with
      | .ok n => .ok (decide (0 < n))
      | .error e => .error e
    | Option.none => .error .attributeError
  else gsShouldWriteValueForKey layerClassesForName layerDefaultsForName layerKeyTranslate
    getValue key

/-- `GSPath.shouldWriteValueForKey`: the closed flag is always written;
everything else falls to the base rules. -/
def gsPathShouldWriteValueForKey (getValue : String → Option PValue) (key : String) :
    Except PyErr Bool :=
  if key == "closed" then .ok true
  else gsShouldWriteValueForKey pathClassesForName pathDefaultsForName id getValue key

/-- `GSFont.setVersionMinor` as a state transition on `_versionMinor`:
the assertion raises before the slot is assigned, so a rejected value
leaves the stored minor version unchanged. -/
def gsFontSetVersionMinor (cur : Int) (value : Int) : Int × Option PyErr :=
  if 0 ≤ value ∧ value ≤ 999 then (value, Option.none)
  else (cur, some .assertionError)

/-- `GSFont.getVersionMinor`: returns the stored slot. -/
def gsFontGetVersionMinor (cur : Int) : Int := cur


/-- C1: On the first read of `GSFontMaster.name` with no explicit name and
no "Master Name" parameter, the computed-name branch does not behave as
specified: with default weight/width "Regular" and italic angle 1 the read
raises `AttributeError` (the source calls `names.add("Italic")` on a
list) instead of appending an "Italic" component; with weight "Bold" and
width "Condensed" it raises `ValueError` (`names.remove("Regular")` runs
unconditionally since `names` always starts with two entries) instead of
returning "Bold Condensed"; the non-italic path with a "Regular"
component present does return the specified "Bold". -/
theorem GSFontMaster_name_first_read_eval :
    masterNameRead ⟨"M1", Option.none, "Regular", "Regular", "", Option.none, Option.none, 1, []⟩ =
      .error .attributeError ∧
    masterNameRead ⟨"M2", Option.none, "Bold", "Condensed", "", Option.none, Option.none, 0, []⟩ =
      .error .valueError ∧
    masterNameRead ⟨"M3", Option.none, "Bold", "Regular", "", Option.none, Option.none, 0, []⟩ =
      .ok (.str "Bold") :=
  ⟨rfl, rfl, rfl⟩

/-- C2: For every custom-parameter name in the integer-coded registry set,
assigning a string holding a decimal integer stores the parsed integer
(reads return it), and rendering produces that integer's decimal text
unquoted inside the `\x7b\nname = ...;\nvalue = ...;\n\x7d` form. -/
theorem GSCustomParameter_int_param_roundtrip (name s : String) (n : Int)
    (hmem : CUSTOM_INT_PARAMS.contains name = true)
    (hparse : pyIntParse s = some n) :
    setValue name (.str s) = .ok (.int n) ∧
    paramGetValue ⟨name, .int n⟩ = .int n ∧
    plistValue ⟨name, .int n⟩ =
      .ok (plistWrap (if needsQuotesM name then "\"" ++ name ++ "\"" else name) (toString n)) := by
  refine ⟨?_, rfl, ?_⟩
  · unfold setValue
    rw [hmem]
    simp [pyToInt, hparse]
  · unfold plistValue
    rw [hmem]
    simp [pyStrM]

/-- C2 witness: `"unitsPerEm"` set from the string `"1000"` stores the
integer 1000 and renders as unquoted decimal text. -/
theorem GSCustomParameter_int_param_roundtrip_witness :
    setValue "unitsPerEm" (.str "1000") = .ok (.int 1000) ∧
    plistValue ⟨"unitsPerEm", .int 1000⟩ =
      .ok "\x7b\nname = unitsPerEm;\nvalue = 1000;\n\x7d" := by
  have h := GSCustomParameter_int_param_roundtrip "unitsPerEm" "1000" 1000 (by decide) (by decide)
  exact ⟨h.1, by rw [h.2.2]; rfl⟩

/-- C3: `CustomParametersProxy.__setitem__` with a name key does not
update an existing parameter in place: `__getitem__` returns the stored
*value*, so `Value.value = value` raises `AttributeError` whenever a
parameter of that name already holds a non-None builtin value; only the
absent-name branch (append) behaves as specified. -/
theorem CustomParametersProxy_set_by_name_eval :
    cpSetItem [⟨"note", .str "a"⟩] (.name "note") (.str "b") = .error .attributeError ∧
    cpSetItem [] (.name "note") (.str "b") = .ok [⟨"note", .str "b"⟩] :=
  ⟨rfl, rfl⟩

/-- C8: `GSFont.setVersionMinor` accepts exactly 0..999; a rejected value
raises before the slot is written, leaving the stored value unchanged,
and an accepted value is what later reads return. -/
theorem GSFont_setVersionMinor_range :
    (∀ cur v : Int, 0 ≤ v → v ≤ 999 →
      gsFontSetVersionMinor cur v = (v, Option.none) ∧
      gsFontGetVersionMinor (gsFontSetVersionMinor cur v).1 = v) ∧
    (∀ cur v : Int, v < 0 ∨ 999 < v →
      gsFontSetVersionMinor cur v = (cur, some .assertionError)) := by
  constructor
  · intro cur v h0 h999
    have : gsFontSetVersionMinor cur v = (v, Option.none) := by
      simp [gsFontSetVersionMinor, h0, h999]
    exact ⟨this, by rw [this]; rfl⟩
  · intro cur v h
    rcases h with h | h
    · simp [gsFontSetVersionMinor, h, not_le.mpr h]
    · have : ¬(0 ≤ v ∧ v ≤ 999) := by
        rintro ⟨-, h2⟩
        exact absurd h (not_lt.mpr h2)
      simp [gsFontSetVersionMinor, this]

/-- C8 witness: setting the minor version to 1000 is rejected with the
stored value unchanged; setting 0 and then 999 both succeed. -/
theorem GSFont_setVersionMinor_range_witness :
    gsFontSetVersionMinor 0 1000 = (0, some .assertionError) ∧
    gsFontSetVersionMinor 0 0 = (0, Option.none) ∧
    gsFontSetVersionMinor 0 999 = (999, Option.none) :=
  ⟨GSFont_setVersionMinor_range.2 0 1000 (Or.inr (by norm_num)),
   (GSFont_setVersionMinor_range.1 0 0 le_rfl (by norm_num)).1,
   (GSFont_setVersionMinor_range.1 0 999 (by norm_num) le_rfl).1⟩

/-- C10: `GSLayer.shouldWriteValueForKey` reports `name` and
`associatedMasterId` as written exactly when the layer is not a master
layer, i.e. when `layerId` and `associatedMasterId` differ, independent of
the field values. -/
theorem GSLayer_shouldWriteValueForKey_master_layer :
    ∀ (layerId associatedMasterId : String) (getValue : String → Option PValue),
      gsLayerShouldWriteValueForKey layerId associatedMasterId getValue "name" =
        .ok (layerId != associatedMasterId) ∧
      gsLayerShouldWriteValueForKey layerId associatedMasterId getValue "associatedMasterId" =
        .ok (layerId != associatedMasterId) :=
  fun _ _ _ => ⟨rfl, rfl⟩

/-- C4 counterexample: appending an anchor with no name does not raise
when the layer already holds an anchor with an empty name — the name-match
loop runs first, so the unnamed anchor is replaced in place and the list
changes instead of staying unchanged under an error. -/
theorem LayerAnchorsProxy_append_unnamed_counterexample :
    layerAnchorsAppend 7 [⟨"", 0, 0, Option.none⟩] ⟨"", 1, 1, Option.none⟩ =
      .ok [⟨"", 1, 1, some 7⟩] ∧
    (Anchor.mk "" 1 1 (some 7)) ≠ (Anchor.mk "" 0 0 Option.none) :=
  ⟨rfl, by decide⟩

/-- C4 (amended): appending an anchor whose name matches an existing one
(first match, empty or not) replaces that anchor in place with the new
anchor's data and parent, leaving the count unchanged; a non-empty name
with no match appends at the end; an empty name raises `ValueError` and
leaves the list unchanged provided no existing anchor also has an empty
name. -/
theorem LayerAnchorsProxy_append_amended (ownerId : Nat) (anchors : List Anchor)
    (anchor : Anchor) :
    (∀ i, anchors.findIdx? (fun a => a.name == anchor.name) = some i →
      layerAnchorsAppend ownerId anchors anchor =
        .ok (anchors.set i { anchor with parent := some ownerId }) ∧
      (anchors.set i { anchor with parent := some ownerId }).length = anchors.length) ∧
    (anchors.findIdx? (fun a => a.name == anchor.name) = Option.none → anchor.name ≠ "" →
      layerAnchorsAppend ownerId anchors anchor = .ok (anchors ++ [anchor])) ∧
    (anchor.name = "" → (∀ a ∈ anchors, a.name ≠ "") →
      layerAnchorsAppend ownerId anchors anchor = .error .valueError) := by
  refine ⟨?_, ?_, ?_⟩
  · intro i h
    unfold layerAnchorsAppend
    rw [h]
    exact ⟨rfl, List.length_set ..⟩
  · intro h hne
    unfold layerAnchorsAppend
    rw [h]
    simp [hne]
  · intro h hall
    have hidx : anchors.findIdx? (fun a => a.name == anchor.name) = Option.none := by
      rw [List.findIdx?_eq_none_iff]
      intro a ha
      have := hall a ha
      simp only [h] at this ⊢
      simpa using this
    unfold layerAnchorsAppend
    rw [hidx]
    simp [h]

/-- C4 witness: replacing a same-named anchor keeps the count and stores
the second anchor's data; a fresh non-empty name appends at the end; an
empty name over a properly named list raises. -/
theorem LayerAnchorsProxy_append_amended_witness :
    layerAnchorsAppend 3 [⟨"top", 0, 0, Option.none⟩] ⟨"top", 5, 6, Option.none⟩ =
      .ok [⟨"top", 5, 6, some 3⟩] ∧
    layerAnchorsAppend 3 [⟨"top", 0, 0, Option.none⟩] ⟨"base", 5, 6, Option.none⟩ =
      .ok [⟨"top", 0, 0, Option.none⟩, ⟨"base", 5, 6, Option.none⟩] ∧
    layerAnchorsAppend 3 [⟨"top", 0, 0, Option.none⟩] ⟨"", 5, 6, Option.none⟩ =
      .error .valueError := by
  refine ⟨?_, ?_, ?_⟩
  · exact ((LayerAnchorsProxy_append_amended 3 _ _).1 0 (by decide)).1
  · exact (LayerAnchorsProxy_append_amended 3 _ _).2.1 (by decide) (by decide)
  · exact (LayerAnchorsProxy_append_amended 3 _ _).2.2 rfl (by decide)

/-- C9: indexing the custom-parameter proxy is asymmetric in the key
type: an in-range integer position (non-negative or negative-from-end)
yields the parameter object itself, while a name yields the first
matching parameter's stored value, or the Python-None absence marker when
no parameter of that name exists. -/
theorem CustomParametersProxy_getitem_asymmetry :
    (∀ (params : List Param) (i : Nat) (p : Param), params.get? i = some p →
      cpGetItem params (.pos (i : Int)) = .ok (.obj p)) ∧
    (∀ (params : List Param) (j : Nat) (p : Param),
      j + 1 ≤ params.length → params.get? (params.length - (j + 1)) = some p →
      cpGetItem params (.pos (-(j + 1 : Nat) : Int)) = .ok (.obj p)) ∧
    (∀ (params : List Param) (s : String) (p : Param),
      params.find? (fun q => q.name == s) = some p →
      cpGetItem params (.name s) = .ok (.val p.value)) ∧
    (∀ (params : List Param) (s : String),
      params.find? (fun q => q.name == s) = Option.none →
      cpGetItem params (.name s) = .ok (.val .none)) := by
  refine ⟨?_, ?_, ?_, ?_⟩
  · intro params i p h
    simp only [cpGetItem, pyListGet]
    rw [if_pos (Int.natCast_nonneg i)]
    have h1 : (i : Int).toNat = i := by omega
    rw [h1, h]
  · intro params j p hle h
    simp only [cpGetItem, pyListGet]
    have h0 : ¬ (0 : Int) ≤ (-(j + 1 : Nat) : Int) := by omega
    rw [if_neg h0]
    have h1 : ((-(-(j + 1 : Nat) : Int)).toNat) = j + 1 := by omega
    rw [h1, if_pos hle, h]
  · intro params s p h
    simp only [cpGetItem]
    rw [h]
  · intro params s h
    simp only [cpGetItem]
    rw [h]

/-- C9 witness: position 0 yields the first parameter object; the name
"b" yields the second parameter's stored value. -/
theorem CustomParametersProxy_getitem_asymmetry_witness :
    cpGetItem [⟨"a", .int 1⟩, ⟨"b", .int 2⟩] (.pos 0) = .ok (.obj ⟨"a", .int 1⟩) ∧
    cpGetItem [⟨"a", .int 1⟩, ⟨"b", .int 2⟩] (.name "b") = .ok (.val (.int 2)) := by
  constructor
  · exact CustomParametersProxy_getitem_asymmetry.1 [⟨"a", .int 1⟩, ⟨"b", .int 2⟩] 0
      ⟨"a", .int 1⟩ rfl
  · exact CustomParametersProxy_getitem_asymmetry.2.2.1 [⟨"a", .int 1⟩, ⟨"b", .int 2⟩] "b"
      ⟨"b", .int 2⟩ rfl

/-- C5 counterexample: a layer whose `layerId` equals its
`associatedMasterId` with both empty, owned by a glyph in a font that
does contain a master with that (empty) id, reports its own stored name
— the property's first guard tests the id for truthiness, so the empty
shared id never delegates even though the font has a matching master
whose reported name differs. -/
theorem GSLayer_name_empty_id_counterexample :
    layerNameRead ⟨"", "", .str "Stored", some 1⟩
        (some ⟨[⟨"", some (.str "Bold"), "Regular", "Regular", "", Option.none, Option.none,
          0, []⟩]⟩) = .ok (.str "Stored") ∧
    fontMasterForId ⟨[⟨"", some (.str "Bold"), "Regular", "Regular", "", Option.none,
        Option.none, 0, []⟩]⟩ "" =
      some ⟨"", some (.str "Bold"), "Regular", "Regular", "", Option.none, Option.none, 0, []⟩ ∧
    masterNameRead ⟨"", some (.str "Bold"), "Regular", "Regular", "", Option.none, Option.none,
        0, []⟩ = .ok (.str "Bold") ∧
    PValue.str "Stored" ≠ PValue.str "Bold" := by
  refine ⟨rfl, rfl, rfl, ?_⟩
  intro hEq
  injection hEq with hs
  exact absurd hs (by decide)

/-- C5 (amended): a layer whose non-empty `associatedMasterId` equals its
`layerId` and whose owning glyph belongs to a font containing a master
with that id reports that master's current name on every read — the same
layer value yields whatever the master's name read yields, so changing
the master's reported name changes the layer's reported name without
touching the layer.  When the shared id is empty, the ids differ, or the
layer has no owning glyph, the layer's own stored name is returned; when
the font lacks a master with the id, the stored name is returned; when
the guard holds but the glyph has no font, the read raises
`AttributeError`. -/
theorem GSLayer_name_delegation_amended :
    (∀ (l : Layer) (f : Font) (m : Master),
      l.associatedMasterId ≠ "" → l.associatedMasterId = l.layerId → l.parent.isSome = true →
      fontMasterForId f l.associatedMasterId = some m →
      layerNameRead l (some f) = masterNameRead m) ∧
    (∀ (l : Layer) (f : Font),
      l.associatedMasterId ≠ "" → l.associatedMasterId = l.layerId → l.parent.isSome = true →
      fontMasterForId f l.associatedMasterId = Option.none →
      layerNameRead l (some f) = .ok l.name_) ∧
    (∀ (l : Layer) (glyphFont : Option Font),
      l.associatedMasterId = "" ∨ l.associatedMasterId ≠ l.layerId ∨ l.parent = Option.none →
      layerNameRead l glyphFont = .ok l.name_) ∧
    (∀ (l : Layer),
      l.associatedMasterId ≠ "" → l.associatedMasterId = l.layerId → l.parent.isSome = true →
      layerNameRead l Option.none = .error .attributeError) := by
  refine ⟨?_, ?_, ?_, ?_⟩
  · intro l f m h1 h2 h3 hm
    rw [h2] at h1
    have hg : (l.associatedMasterId != "" && l.associatedMasterId == l.layerId &&
        l.parent.isSome) = true := by simp [h2, h1, h3]
    unfold layerNameRead
    rw [hg]
    show (match fontMasterForId f l.associatedMasterId with
      | some mm => masterNameRead mm
      | Option.none => Except.ok l.name_) = masterNameRead m
    rw [hm]
  · intro l f h1 h2 h3 hm
    rw [h2] at h1
    have hg : (l.associatedMasterId != "" && l.associatedMasterId == l.layerId &&
        l.parent.isSome) = true := by simp [h2, h1, h3]
    unfold layerNameRead
    rw [hg]
    show (match fontMasterForId f l.associatedMasterId with
      | some mm => masterNameRead mm
      | Option.none => Except.ok l.name_) = Except.ok l.name_
    rw [hm]
  · intro l glyphFont h
    have hg : (l.associatedMasterId != "" && l.associatedMasterId == l.layerId &&
        l.parent.isSome) = false := by
      rcases h with h | h | h
      · simp [h]
      · simp [h]
      · simp [h]
    unfold layerNameRead
    rw [hg]
    rfl
  · intro l h1 h2 h3
    rw [h2] at h1
    have hg : (l.associatedMasterId != "" && l.associatedMasterId == l.layerId &&
        l.parent.isSome) = true := by simp [h2, h1, h3]
    unfold layerNameRead
    rw [hg]
    rfl

/-- C5 witness: a master layer for id "M1" reports the master's explicit
name "Bold". -/
theorem GSLayer_name_delegation_amended_witness :
    layerNameRead ⟨"M1", "M1", .str "Stored", some 0⟩
        (some ⟨[⟨"M1", some (.str "Bold"), "Regular", "Regular", "", Option.none, Option.none,
          0, []⟩]⟩) = .ok (.str "Bold") := by
  have h := GSLayer_name_delegation_amended.1 ⟨"M1", "M1", .str "Stored", some 0⟩
    ⟨[⟨"M1", some (.str "Bold"), "Regular", "Regular", "", Option.none, Option.none, 0, []⟩]⟩
    ⟨"M1", some (.str "Bold"), "Regular", "Regular", "", Option.none, Option.none, 0, []⟩
    (by decide) rfl rfl rfl
  rw [h]
  rfl

/-- Helper: a wrapper value never compares equal to integer zero. -/
theorem pyEqZero_wrapper (w : Option PValue) : pyEqZero (.wrapper w) = false := rfl

/-- C6 counterexample: a master whose `width` is `"Regular"` has its width
field reported as omitted, not written — the master override suppresses
`width`/`weight` at the value `"Regular"`, so these fields are not in the
always-written set. -/
theorem GSFontMaster_width_regular_counterexample :
    gsFontMasterShouldWriteValueForKey
      (fun k => if k == "width" then some (.str "Regular") else Option.none) "width" =
      .ok false :=
  rfl

/-- C6 (amended): the policy's rule order with the master override stated
as the source has it — the font's units-per-em and minor version, layer
width and path closed-flag are written regardless of value; a master's
own weight/width fields are written exactly when their value differs from
"Regular"; otherwise a field equal to its declared non-None explicit
default is omitted and an unequal one written; with no such default, a
bare numeric/boolean field equal to zero/false is omitted, a wrapper
value carrying the no-value sentinel is omitted, and every other field is
written. -/
theorem shouldWriteValueForKey_policy_amended :
    (∀ getValue : String → Option PValue,
      gsFontShouldWriteValueForKey getValue "unitsPerEm" = .ok true ∧
      gsFontShouldWriteValueForKey getValue "versionMinor" = .ok true) ∧
    (∀ (getValue : String → Option PValue) (key : String) (v : PValue),
      (key = "width" ∨ key = "weight") → getValue key = some v →
      gsFontMasterShouldWriteValueForKey getValue key = .ok (!(pyEq v (.str "Regular")))) ∧
    (∀ (layerId associatedMasterId : String) (getValue : String → Option PValue),
      gsLayerShouldWriteValueForKey layerId associatedMasterId getValue "width" = .ok true) ∧
    (∀ getValue : String → Option PValue,
      gsPathShouldWriteValueForKey getValue "closed" = .ok true) ∧
    (∀ (classesForName : String → Option TypeTag) (defaultsForName : String → Option PValue)
      (keyTranslate : String → String) (getValue : String → Option PValue) (key : String)
      (tag : TypeTag) (d v : PValue),
      getValue (keyTranslate key) = some v → classesForName key = some tag →
      defaultsForName key = some d → d ≠ PValue.none →
      gsShouldWriteValueForKey classesForName defaultsForName keyTranslate getValue key =
        .ok (!(pyEq d v))) ∧
    (∀ (classesForName : String → Option TypeTag) (defaultsForName : String → Option PValue)
      (keyTranslate : String → String) (getValue : String → Option PValue) (key : String)
      (tag : TypeTag) (v : PValue),
      getValue (keyTranslate key) = some v → classesForName key = some tag →
      (defaultsForName key = Option.none ∨ defaultsForName key = some PValue.none) →
      gsShouldWriteValueForKey classesForName defaultsForName keyTranslate getValue key =
        .ok (shouldWriteRest tag v)) ∧
    (∀ (tag : TypeTag) (v : PValue),
      (tag = .tint ∨ tag = .tfloat ∨ tag = .tbool) → pyEqZero v = true →
      shouldWriteRest tag v = false) ∧
    (∀ tag : TypeTag, shouldWriteRest tag (.wrapper Option.none) = false) ∧
    (∀ (tag : TypeTag) (v : PValue),
      tag ≠ .tint → tag ≠ .tfloat → tag ≠ .tbool → v ≠ .wrapper Option.none →
      shouldWriteRest tag v = true) ∧
    (∀ (tag : TypeTag) (v : PValue),
      pyEqZero v = false → v ≠ .wrapper Option.none →
      shouldWriteRest tag v = true) := by
  refine ⟨fun gv => ⟨rfl, rfl⟩, ?_, fun lid aid gv => rfl, fun gv => rfl, ?_, ?_, ?_, ?_, ?_, ?_⟩
  · intro gv key v hkey hv
    rcases hkey with h | h <;> subst h
    · show (match gv "width" with
        | some v => Except.ok (!(pyEq v (.str "Regular")))
        | Option.none => Except.error PyErr.attributeError) = _
      rw [hv]
    · show (match gv "weight" with
        | some v => Except.ok (!(pyEq v (.str "Regular")))
        | Option.none => Except.error PyErr.attributeError) = _
      rw [hv]
  · intro classesForName defaultsForName keyTranslate gv key tag d v hgv hcls hdef hne
    simp only [gsShouldWriteValueForKey, hgv, hcls, hdef]
  · intro classesForName defaultsForName keyTranslate gv key tag v hgv hcls hdef
    rcases hdef with h | h <;> simp only [gsShouldWriteValueForKey, hgv, hcls, h]
  · intro tag v htag hz
    have hnum : (tag == TypeTag.tint || tag == TypeTag.tfloat || tag == TypeTag.tbool) = true := by
      rcases htag with h | h | h <;> subst h <;> rfl
    unfold shouldWriteRest
    rw [hnum, hz]
    rfl
  · intro tag
    unfold shouldWriteRest
    rw [pyEqZero_wrapper]
    simp
  · intro tag v h1 h2 h3 h4
    have hnum : (tag == TypeTag.tint || tag == TypeTag.tfloat || tag == TypeTag.tbool) = false := by
      cases tag <;> simp_all
    unfold shouldWriteRest
    rw [hnum]
    simp only [Bool.false_and, Bool.false_eq_true, if_false]
  · intro tag v hz h2
    unfold shouldWriteRest
    rw [hz]
    simp only [Bool.and_false, Bool.false_eq_true, if_false]

/-- C6 witness: the font's units-per-em is written even at value 0; a
master weight "Bold" is written; a font `gridLength` equal to its declared
default 1 is omitted. -/
theorem shouldWriteValueForKey_policy_amended_witness :
    gsFontShouldWriteValueForKey (fun _ => some (.int 0)) "unitsPerEm" = .ok true ∧
    gsFontMasterShouldWriteValueForKey
      (fun k => if k == "weight" then some (.str "Bold") else Option.none) "weight" = .ok true ∧
    gsShouldWriteValueForKey fontClassesForName fontDefaultsForName fontKeyTranslate
      (fun _ => some (.int 1)) "gridLength" = .ok false := by
  refine ⟨(shouldWriteValueForKey_policy_amended.1 _).1, ?_, ?_⟩
  · have h := shouldWriteValueForKey_policy_amended.2.1
      (fun k => if k == "weight" then some (.str "Bold") else Option.none) "weight"
      (.str "Bold") (Or.inr rfl) rfl
    rw [h]
    rfl
  · have h := shouldWriteValueForKey_policy_amended.2.2.2.2.1 fontClassesForName
      fontDefaultsForName fontKeyTranslate (fun _ => some (.int 1)) "gridLength" .tint
      (.int 1) (.int 1) rfl rfl rfl (by simp)
    rw [h]
    rfl

/-- C7 counterexample: bulk-replacing a glyph's layers with a list of two
layers sharing a layer id collapses them into one entry (the second
overwrites the first in the keyed dict), so the supplied order is not
preserved under positional access and the dropped layer is never
re-linked. -/
theorem GlyphLayerProxy_setter_duplicate_ids_counterexample :
    glyphLayersSetter Option.none ⟨1, []⟩
        (.list [⟨"", "", .str "A", Option.none⟩, ⟨"", "", .str "B", Option.none⟩]) =
      .ok ⟨1, [("", ⟨"", "", .str "B", some 1⟩)]⟩ ∧
    [("", Layer.mk "" "" (.str "B") (some 1))].length ≠
      [Layer.mk "" "" (.str "A") Option.none, Layer.mk "" "" (.str "B") Option.none].length :=
  ⟨rfl, by decide⟩

/-- Helper: inserting a fresh key into the ordered dict appends. -/
theorem odInsert_append (acc : List (String × Layer)) (k : String) (l : Layer)
    (h : ∀ p ∈ acc, p.1 ≠ k) : odInsert acc k l = acc ++ [(k, l)] := by
  induction acc with
  | nil => rfl
  | cons hd tl ih =>
    have hne : (hd.1 == k) = false := by
      simp only [beq_eq_false_iff_ne]
      exact h hd (List.mem_cons_self _ _)
    obtain ⟨k', l'⟩ := hd
    simp only [odInsert, hne, Bool.false_eq_true, if_false, List.cons_append, List.cons.injEq,
      true_and]
    exact ih (fun p hp => h p (List.mem_cons_of_mem _ hp))

/-- Helper: folding ordered-dict insertion over layers with pairwise
distinct ids appends them in order. -/
theorem layersFold_nodup (ls : List Layer) : ∀ acc : List (String × Layer),
    (∀ p ∈ acc, ∀ l ∈ ls, p.1 ≠ l.layerId) → (ls.map Layer.layerId).Nodup →
    ls.foldl (fun acc l => odInsert acc l.layerId l) acc =
      acc ++ ls.map (fun l => (l.layerId, l)) := by
  induction ls with
  | nil =>
    intro acc _ _
    simp
  | cons l rest ih =>
    intro acc hdisj hnd
    rw [List.map_cons, List.nodup_cons] at hnd
    obtain ⟨hnotmem, hnd'⟩ := hnd
    have h1 : odInsert acc l.layerId l = acc ++ [(l.layerId, l)] :=
      odInsert_append acc l.layerId l (fun p hp => hdisj p hp l (List.mem_cons_self _ _))
    have hdisj' : ∀ p ∈ acc ++ [(l.layerId, l)], ∀ l' ∈ rest, p.1 ≠ l'.layerId := by
      intro p hp l' hl'
      rcases List.mem_append.mp hp with hmem | hmem
      · exact hdisj p hmem l' (List.mem_cons_of_mem _ hl')
      · have hp' : p = (l.layerId, l) := List.mem_singleton.mp hmem
        subst hp'
        intro hEq
        exact hnotmem (List.mem_map.mpr ⟨l', hl', hEq.symm⟩)
    rw [List.foldl_cons, h1, ih _ hdisj' hnd']
    simp

/-- C7 (amended): bulk-replacing a glyph's layers with a plain ordered
sequence (list or tuple) whose layers carry pairwise-distinct layer ids
keys every layer by its `layerId` in the supplied order and runs the same
`_setupLayer` an individual append would: the parent back-reference is
set to the glyph, `layerId` is set to the key, `associatedMasterId` is
bound to the key exactly when the glyph's font has a master with that id,
and untouched otherwise; any input that is not a list, tuple, dict or
layer proxy raises `TypeError`.  With duplicated ids, later layers
overwrite earlier ones in place and the dropped layers are not
re-linked. -/
theorem GlyphLayerProxy_setter_amended :
    (∀ (glyphFont : Option Font) (g : Glyph) (ls : List Layer),
      (ls.map Layer.layerId).Nodup →
      glyphLayersSetter glyphFont g (.list ls) =
        .ok ⟨g.gid, ls.map (fun l => (l.layerId, setupLayer glyphFont g.gid l l.layerId))⟩ ∧
      glyphLayersSetter glyphFont g (.tuple ls) = glyphLayersSetter glyphFont g (.list ls)) ∧
    (∀ (glyphFont : Option Font) (gid : Nat) (l : Layer) (key : String),
      (setupLayer glyphFont gid l key).parent = some gid ∧
      (setupLayer glyphFont gid l key).layerId = key ∧
      (∀ f : Font, glyphFont = some f → (fontMasterForId f key).isSome = true →
        (setupLayer glyphFont gid l key).associatedMasterId = key) ∧
      (∀ f : Font, glyphFont = some f → fontMasterForId f key = Option.none →
        (setupLayer glyphFont gid l key).associatedMasterId = l.associatedMasterId) ∧
      (glyphFont = Option.none →
        (setupLayer glyphFont gid l key).associatedMasterId = l.associatedMasterId)) ∧
    (∀ (glyphFont : Option Font) (g : Glyph),
      glyphLayersSetter glyphFont g .other = .error .typeError) := by
  refine ⟨?_, ?_, fun _ _ => rfl⟩
  · intro glyphFont g ls hnd
    constructor
    · simp only [glyphLayersSetter]
      rw [layersFold_nodup ls [] (fun p hp => absurd hp (List.not_mem_nil p)) hnd]
      rw [List.nil_append, List.map_map]
      rfl
    · rfl
  · intro glyphFont gid l key
    refine ⟨rfl, rfl, ?_, ?_, ?_⟩
    · intro f hf hsome
      subst hf
      simp [setupLayer, hsome]
    · intro f hf hnone
      subst hf
      simp [setupLayer, hnone]
    · intro hf
      subst hf
      rfl

/-- C7 witness: two layers with ids "A" and "B", replaced into a glyph of
a font having a master "B": order is preserved, both parents are set, and
only the "B" layer gets its associated master bound. -/
theorem GlyphLayerProxy_setter_amended_witness :
    glyphLayersSetter (some ⟨[⟨"B", Option.none, "Regular", "Regular", "", Option.none,
        Option.none, 0, []⟩]⟩) ⟨5, []⟩
      (.list [⟨"A", "", .str "a", Option.none⟩, ⟨"B", "x", .str "b", Option.none⟩]) =
      .ok ⟨5, [("A", ⟨"A", "", .str "a", some 5⟩), ("B", ⟨"B", "B", .str "b", some 5⟩)]⟩ := by
  have h := (GlyphLayerProxy_setter_amended.1 (some ⟨[⟨"B", Option.none, "Regular", "Regular",
    "", Option.none, Option.none, 0, []⟩]⟩) ⟨5, []⟩
    [⟨"A", "", .str "a", Option.none⟩, ⟨"B", "x", .str "b", Option.none⟩] (by decide)).1
  rw [h]
  rfl
